import Mathlib

/-!
# Verification of the Stella emulation scheduling and time-travel state engine

Shallow embedding of the scheduler / state-engine core of the Stella
Atari 2600 emulator, together with proofs of the specified properties.

Embedded components (translated from the C++ sources):
* `BreakpointMap` (src/debugger/BreakpointMap.cxx / .hxx) — the debugger
  breakpoint registry keyed on (address, bank) with 13-bit address masking.
* `StateManager` (src/common/StateManager.cxx) — manual save/load slots and
  the Off/TimeMachine mode switch.
* `OSystem::mainLoop` / `OSystem::dispatchEmulation` (OSystem.cxx) — the
  real-time pacing loop and the foreground/background dispatch protocol.

Machine integers are modelled as `Nat`; wall-clock and virtual time and the
`double`-valued timeslices are modelled as exact rationals `ℚ` (the claims
under verification are about control flow and exact arithmetic relations of
the pacing loop, not about floating-point rounding).
-/

namespace Stella

/-! ## BreakpointMap (src/debugger/BreakpointMap.hxx / .cxx) -/

/-- `static const uInt16 ADDRESS_MASK = 0x1fff` -/
def ADDRESS_MASK : Nat := 0x1fff

/-- `struct Breakpoint { uInt16 addr; uInt8 bank; }` -/
structure Breakpoint where
  addr : Nat
  bank : Nat
  deriving DecidableEq, Repr

/-- `bool operator==(const Breakpoint& other) const` — compares the
address masked with `ADDRESS_MASK` and the bank exactly. -/
def Breakpoint.beq (a b : Breakpoint) : Bool :=
  (Nat.land a.addr ADDRESS_MASK == Nat.land b.addr ADDRESS_MASK) && (a.bank == b.bank)

/-- The `BreakpointMap` class: `std::unordered_map<Breakpoint, uInt32>`
(modelled as an association list keyed up to `Breakpoint.beq`) plus the
`myInitialized` flag. -/
structure BreakpointMap where
  myMap : List (Breakpoint × Nat)
  myInitialized : Bool
  deriving Repr

/-- `BreakpointMap::BreakpointMap(void) : myInitialized(false)` — the map
starts empty. -/
def BreakpointMap.new : BreakpointMap := ⟨[], false⟩

/-- `void BreakpointMap::add(const Breakpoint&, const uInt32 flags)`:
sets `myInitialized = true` and performs `myMap[breakpoint] = flags`
(insert or overwrite the entry for the key, unique up to `beq`). -/
def BreakpointMap.add (m : BreakpointMap) (bp : Breakpoint) (flags : Nat := 0) :
    BreakpointMap :=
  { myMap := (bp, flags) :: m.myMap.filter (fun p => !(Breakpoint.beq p.1 bp)),
    myInitialized := true }

/-- `void BreakpointMap::erase(const Breakpoint&)`: `myMap.erase(breakpoint)`. -/
def BreakpointMap.erase (m : BreakpointMap) (bp : Breakpoint) : BreakpointMap :=
  { m with myMap := m.myMap.filter (fun p => !(Breakpoint.beq p.1 bp)) }

/-- `uInt32 BreakpointMap::get(const Breakpoint&) const`: the stored flags,
or `0` when the key is absent. -/
def BreakpointMap.get (m : BreakpointMap) (bp : Breakpoint) : Nat :=
  match m.myMap.find? (fun p => Breakpoint.beq p.1 bp) with
  | some p => p.2
  | none => 0

/-- `bool BreakpointMap::check(const Breakpoint&) const`: key presence. -/
def BreakpointMap.check (m : BreakpointMap) (bp : Breakpoint) : Bool :=
  (m.myMap.find? (fun p => Breakpoint.beq p.1 bp)).isSome

/-- `void clear() { myMap.clear(); }` — note: `myInitialized` is untouched. -/
def BreakpointMap.clear (m : BreakpointMap) : BreakpointMap :=
  { m with myMap := [] }

/-- `bool isInitialized() const { return myInitialized; }` -/
def BreakpointMap.isInitialized (m : BreakpointMap) : Bool := m.myInitialized

/-- `size_t size() { return myMap.size(); }` -/
def BreakpointMap.size (m : BreakpointMap) : Nat := m.myMap.length

/-- A debugger command mutating the map (`add`, `erase` or `clear`). -/
inductive BMOp
  | add (bp : Breakpoint) (flags : Nat)
  | erase (bp : Breakpoint)
  | clear
  deriving Repr

/-- Apply one mutating command. -/
def BMOp.apply (op : BMOp) (m : BreakpointMap) : BreakpointMap :=
  match op with
  | .add bp flags => m.add bp flags
  | .erase bp => m.erase bp
  | .clear => m.clear

/-- Apply a sequence of mutating commands, oldest first. -/
def BMOp.applyAll (ops : List BMOp) (m : BreakpointMap) : BreakpointMap :=
  ops.foldl (fun m op => op.apply m) m

/-! ### Auxiliary lemmas for BreakpointMap -/

theorem Breakpoint.beq_iff (a b : Breakpoint) :
    Breakpoint.beq a b = true ↔
      (Nat.land a.addr ADDRESS_MASK = Nat.land b.addr ADDRESS_MASK ∧ a.bank = b.bank) := by
  simp [Breakpoint.beq]

theorem Breakpoint.beq_refl (bp : Breakpoint) : Breakpoint.beq bp bp = true := by
  simp [Breakpoint.beq]

theorem Breakpoint.beq_trans {a b c : Breakpoint} (h₁ : Breakpoint.beq a b = true)
    (h₂ : Breakpoint.beq b c = true) : Breakpoint.beq a c = true := by
  rw [Breakpoint.beq_iff] at h₁ h₂ ⊢
  exact ⟨h₁.1.trans h₂.1, h₁.2.trans h₂.2⟩

theorem find?_filter_beq_eq_none (l : List (Breakpoint × Nat)) {bp bp' : Breakpoint}
    (h : Breakpoint.beq bp bp' = true) :
    (l.filter (fun p => !(Breakpoint.beq p.1 bp'))).find?
      (fun p => Breakpoint.beq p.1 bp) = none := by
  induction l with
  | nil => rfl
  | cons x xs ih =>
    by_cases hx : Breakpoint.beq x.1 bp' = true
    · simp [List.filter, hx, ih]
    · have hxbp : Breakpoint.beq x.1 bp = false := by
        by_contra hc
        simp only [Bool.not_eq_false] at hc
        exact absurd (Breakpoint.beq_trans hc h) (by simpa using hx)
      simp only [Bool.not_eq_true] at hx
      simp [List.filter, hx, List.find?, hxbp, ih]

theorem check_add_of_beq (m : BreakpointMap) {bp bp' : Breakpoint} (flags : Nat)
    (h : Breakpoint.beq bp bp' = true) : (m.add bp flags).check bp' = true := by
  simp [BreakpointMap.add, BreakpointMap.check, List.find?, h]

theorem get_add_of_beq (m : BreakpointMap) {bp bp' : Breakpoint} (flags : Nat)
    (h : Breakpoint.beq bp bp' = true) : (m.add bp flags).get bp' = flags := by
  simp [BreakpointMap.add, BreakpointMap.get, List.find?, h]

theorem check_erase_of_beq (m : BreakpointMap) {bp bp' : Breakpoint}
    (h : Breakpoint.beq bp bp' = true) : (m.erase bp').check bp = false := by
  simp [BreakpointMap.erase, BreakpointMap.check, find?_filter_beq_eq_none _ h]

/-- `addr & ADDRESS_MASK` agrees with reduction modulo `0x2000` (8 KiB mirror). -/
theorem land_mask_eq_mod (a : Nat) : Nat.land a ADDRESS_MASK = a % 0x2000 := by
  have h := Nat.and_pow_two_sub_one_eq_mod a 13
  norm_num at h
  simpa [ADDRESS_MASK, HAnd.hAnd, AndOp.and] using h

theorem isInitialized_apply_of_true {m : BreakpointMap} (op : BMOp)
    (h : m.isInitialized = true) : (op.apply m).isInitialized = true := by
  cases op <;>
    simp_all [BMOp.apply, BreakpointMap.add, BreakpointMap.erase, BreakpointMap.clear,
      BreakpointMap.isInitialized]

/-! ### Claim theorems for BreakpointMap -/

/-- C3: for every valid (address, bank) pair and every flag value `f`:
`add((address, bank), f)` followed by `check((address, bank))` returns
`true` and `get((address, bank))` returns exactly `f`; and
`erase((address, bank))` followed by `check((address, bank))` returns
`false`. -/
theorem C3_breakpointMap_add_check_get_erase (m : BreakpointMap)
    (addr bank flags : Nat) (haddr : addr < 2 ^ 16) (hbank : bank < 2 ^ 8)
    (hflags : flags < 2 ^ 32) :
    (m.add ⟨addr, bank⟩ flags).check ⟨addr, bank⟩ = true ∧
    (m.add ⟨addr, bank⟩ flags).get ⟨addr, bank⟩ = flags ∧
    ((m.add ⟨addr, bank⟩ flags).erase ⟨addr, bank⟩).check ⟨addr, bank⟩ = false ∧
    (m.erase ⟨addr, bank⟩).check ⟨addr, bank⟩ = false :=
  ⟨check_add_of_beq m flags (Breakpoint.beq_refl _),
   get_add_of_beq m flags (Breakpoint.beq_refl _),
   check_erase_of_beq _ (Breakpoint.beq_refl _),
   check_erase_of_beq _ (Breakpoint.beq_refl _)⟩

/-- Witness for C3 at a concrete input. -/
theorem C3_witness :
    (BreakpointMap.new.add ⟨0x1000, 0⟩ 5).check ⟨0x1000, 0⟩ = true ∧
    (BreakpointMap.new.add ⟨0x1000, 0⟩ 5).get ⟨0x1000, 0⟩ = 5 ∧
    ((BreakpointMap.new.add ⟨0x1000, 0⟩ 5).erase ⟨0x1000, 0⟩).check ⟨0x1000, 0⟩ = false ∧
    (BreakpointMap.new.erase ⟨0x1000, 0⟩).check ⟨0x1000, 0⟩ = false :=
  C3_breakpointMap_add_check_get_erase BreakpointMap.new 0x1000 0 5
    (by decide) (by decide) (by decide)

/-- C4: two breakpoints whose banks are equal and whose addresses agree
modulo `0x2000` (the low 13 bits) but differ in higher bits are treated as
the same key: `operator==` identifies them, and adding one then querying
the other with `check`/`get`/`erase` behaves as if querying the added key. -/
theorem C4_breakpointMap_address_mirroring (m : BreakpointMap)
    (a₁ a₂ bank flags : Nat) (h₁ : a₁ < 2 ^ 16) (h₂ : a₂ < 2 ^ 16)
    (hbank : bank < 2 ^ 8) (hmod : a₁ % 0x2000 = a₂ % 0x2000) (hne : a₁ ≠ a₂) :
    Breakpoint.beq ⟨a₁, bank⟩ ⟨a₂, bank⟩ = true ∧
    (m.add ⟨a₁, bank⟩ flags).check ⟨a₂, bank⟩ = true ∧
    (m.add ⟨a₁, bank⟩ flags).get ⟨a₂, bank⟩ = flags ∧
    ((m.add ⟨a₁, bank⟩ flags).erase ⟨a₂, bank⟩).check ⟨a₁, bank⟩ = false := by
  have hbeq : Breakpoint.beq ⟨a₁, bank⟩ ⟨a₂, bank⟩ = true := by
    rw [Breakpoint.beq_iff]
    exact ⟨by rw [land_mask_eq_mod, land_mask_eq_mod]; exact hmod, rfl⟩
  exact ⟨hbeq, check_add_of_beq m flags hbeq, get_add_of_beq m flags hbeq,
    check_erase_of_beq _ hbeq⟩

/-- Witness for C4 at the spec's example: addresses `0x1000` and `0x3000`,
bank `0`, collide. -/
theorem C4_witness :
    Breakpoint.beq ⟨0x1000, 0⟩ ⟨0x3000, 0⟩ = true ∧
    (BreakpointMap.new.add ⟨0x1000, 0⟩ 7).check ⟨0x3000, 0⟩ = true ∧
    (BreakpointMap.new.add ⟨0x1000, 0⟩ 7).get ⟨0x3000, 0⟩ = 7 ∧
    ((BreakpointMap.new.add ⟨0x1000, 0⟩ 7).erase ⟨0x3000, 0⟩).check ⟨0x1000, 0⟩ = false :=
  C4_breakpointMap_address_mirroring BreakpointMap.new 0x1000 0x3000 0 7
    (by decide) (by decide) (by decide) (by decide) (by decide)

/-- C9: `isInitialized()` is `false` on a newly constructed map, `true`
after the first `add`, and once `true` never returns to `false` under any
sequence of further operations — in particular `erase` and `clear` leave it
`true`, so a map that is empty again (`size() == 0` after `clear()`) can
still report `isInitialized() == true`. -/
theorem C9_breakpointMap_isInitialized_lifecycle :
    BreakpointMap.new.isInitialized = false ∧
    (∀ (m : BreakpointMap) (bp : Breakpoint) (flags : Nat),
      (m.add bp flags).isInitialized = true) ∧
    (∀ (m : BreakpointMap) (ops : List BMOp),
      m.isInitialized = true → (BMOp.applyAll ops m).isInitialized = true) ∧
    (∀ (m : BreakpointMap) (bp : Breakpoint) (flags : Nat),
      ((m.add bp flags).clear).size = 0 ∧
      ((m.add bp flags).clear).isInitialized = true) := by
  refine ⟨rfl, fun m bp flags => rfl, fun m ops => ?_, fun m bp flags => ⟨rfl, rfl⟩⟩
  induction ops generalizing m with
  | nil => exact fun h => h
  | cons op rest ih =>
    intro h
    exact ih _ (isInitialized_apply_of_true op h)

/-- Witness for C9: after `add` then `erase` then `clear` the map is empty
yet still initialized. -/
theorem C9_witness :
    (BMOp.applyAll [BMOp.erase ⟨0x80, 1⟩, BMOp.clear]
      (BreakpointMap.new.add ⟨0x80, 1⟩ 0)).isInitialized = true :=
  C9_breakpointMap_isInitialized_lifecycle.2.2.1
    (BreakpointMap.new.add ⟨0x80, 1⟩ 0) [BMOp.erase ⟨0x80, 1⟩, BMOp.clear] rfl

/-! ## StateManager (src/common/StateManager.cxx)

The manager's interaction with the operating-system facade (`OSystem`),
the open state file and the console is captured by an environment record:
one `loadState`/`saveState` call reads `hasConsole()`, the cartridge name,
whether the `Serializer` on the slot file is valid, the strings produced by
`getString()` and the outcome of the console body (de)serialization. -/

/-- `#define STATE_HEADER "05099100state"` -/
def STATE_HEADER : String := "05099100state"

/-- Outcome of a fallible `Serializer::getString()` call: a value, or a
thrown exception (e.g. a truncated file). -/
inductive SerRead (α : Type)
  | val (a : α)
  | exn
  deriving DecidableEq, Repr

/-- Modelled from the spec: `Console::load(Serializer&)` is not under src/
(only its caller `StateManager::loadState` is). The spec's error taxonomy
states "(3) Corrupt payload — any exception while deserializing the console
body: caught, reported as invalid data, live machine left unmodified (load
is all-or-nothing)", so a console load either succeeds and replaces the
whole machine state, or returns `false` / throws leaving the live machine
unmodified. -/
inductive ConsoleLoadResult (M : Type)
  | ok (newMachine : M)
  | bad
  | exn
  deriving DecidableEq, Repr

/-- The environment one `StateManager::loadState(int slot)` call observes. -/
structure LoadEnv (M : Type) where
  hasConsole : Bool
  cartName : String
  canOpen : Bool
  s1 : SerRead String
  s2 : SerRead String
  body : ConsoleLoadResult M
  deriving Repr

/-- Observable effect of one `StateManager::loadState(int slot)` call. -/
structure LoadResult (M : Type) where
  message : Option String
  machine : M
  currentSlot : Nat
  openedFile : Bool
  deriving DecidableEq, Repr

/-- `if(slot < 0) slot = myCurrentSlot;` -/
def effectiveSlot (currentSlot : Nat) (slot : Int) : Int :=
  if slot < 0 then (currentSlot : Int) else slot

/-- `void StateManager::loadState(int slot)` — guarded on
`myOSystem.hasConsole()`; opens `<stateDir><cartName>.st<slot>` read-only,
validates the header string and the cartridge name, then loads the console
body; every outcome shows one message via `frameBuffer().showMessage`. -/
def StateManager.loadState {M : Type} (env : LoadEnv M) (machine : M)
    (currentSlot : Nat) (slot : Int) : LoadResult M :=
  if env.hasConsole then
    let s := effectiveSlot currentSlot slot
    if !env.canOpen then
      ⟨some ("Can't open/load from state file " ++ toString s), machine, currentSlot, true⟩
    else
      match env.s1 with
      | .exn => ⟨some ("Invalid data in state " ++ toString s ++ " file"),
                 machine, currentSlot, true⟩
      | .val h =>
        if h ≠ STATE_HEADER then
          ⟨some ("Incompatible state " ++ toString s ++ " file"), machine, currentSlot, true⟩
        else
          match env.s2 with
          | .exn => ⟨some ("Invalid data in state " ++ toString s ++ " file"),
                     machine, currentSlot, true⟩
          | .val n =>
            if n ≠ env.cartName then
              ⟨some ("State " ++ toString s ++ " file doesn't match current ROM"),
               machine, currentSlot, true⟩
            else
              match env.body with
              | .ok m' => ⟨some ("State " ++ toString s ++ " loaded"), m', currentSlot, true⟩
              | .bad => ⟨some ("Invalid data in state " ++ toString s ++ " file"),
                         machine, currentSlot, true⟩
              | .exn => ⟨some ("Invalid data in state " ++ toString s ++ " file"),
                         machine, currentSlot, true⟩
  else ⟨none, machine, currentSlot, false⟩

/-- The environment one `StateManager::saveState(int slot)` call observes. -/
structure SaveEnv where
  hasConsole : Bool
  canOpen : Bool
  putHeaderThrows : Bool
  consoleSaveOk : Bool
  autoslot : Bool
  deriving DecidableEq, Repr

/-- Observable effect of one `StateManager::saveState(int slot)` call:
`targetSlot` is the slot whose file the `Serializer` was opened on
(`none` when no file was touched at all). -/
structure SaveResult where
  targetSlot : Option Int
  message : Option String
  currentSlot : Nat
  deriving DecidableEq, Repr

/-- `void StateManager::saveState(int slot)` — guarded on
`myOSystem.hasConsole()`; opens `<stateDir><cartName>.st<slot>` for
writing, writes the header and the cartridge name (a throw there aborts),
then saves the console body; on success, if the `autoslot` setting is
enabled, `myCurrentSlot = (slot + 1) % 10`. -/
def StateManager.saveState (env : SaveEnv) (currentSlot : Nat) (slot : Int) :
    SaveResult :=
  if env.hasConsole then
    let s := effectiveSlot currentSlot slot
    if !env.canOpen then
      ⟨some s, some ("Can't open/save to state file " ++ toString s), currentSlot⟩
    else if env.putHeaderThrows then
      ⟨some s, some ("Error saving state " ++ toString s), currentSlot⟩
    else if env.consoleSaveOk then
      if env.autoslot then
        ⟨some s, some ("State " ++ toString s ++ " saved, switching to slot " ++ toString s),
         ((s + 1) % 10).toNat⟩
      else
        ⟨some s, some ("State " ++ toString s ++ " saved"), currentSlot⟩
    else
      ⟨some s, some ("Error saving state " ++ toString s), currentSlot⟩
  else ⟨none, none, currentSlot⟩

/-- `enum class Mode { Off, TimeMachine, MovieRecord, MoviePlayback }` (the
movie modes are compiled out under `#if 0`). -/
inductive Mode
  | Off
  | TimeMachine
  deriving DecidableEq, Repr

/-- One `RewindManager::addState(message, continuous)` invocation. -/
structure AddStateCall where
  message : String
  continuous : Bool
  deriving DecidableEq, Repr

/-- `void StateManager::update()` — `switch(myActiveMode)`: in
`Mode::TimeMachine`, `myRewindManager->addState("Time Machine", true)`;
in every other case, nothing. Returns the StateManager state (mode and
current slot, both unchanged) and the list of `addState` calls issued. -/
def StateManager.update (mode : Mode) (currentSlot : Nat) :
    (Mode × Nat) × List AddStateCall :=
  match mode with
  | .TimeMachine => ((mode, currentSlot), [⟨"Time Machine", true⟩])
  | .Off => ((mode, currentSlot), [])

/-! ### Auxiliary lemmas for StateManager -/

theorem loadMsg_incompatible_ne_mismatch (x y : String) :
    "Incompatible state " ++ x ++ " file" ≠
      "State " ++ y ++ " file doesn't match current ROM" := by
  intro h
  have h0 : ("Incompatible state " ++ x ++ " file").data.get? 0 = some 'I' := rfl
  have h1 : ("State " ++ y ++ " file doesn't match current ROM").data.get? 0 =
      some 'S' := rfl
  rw [h] at h0
  exact absurd (Option.some.inj (h0.symm.trans h1)) (by decide)

theorem loadMsg_incompatible_ne_invalid (x y : String) :
    "Incompatible state " ++ x ++ " file" ≠
      "Invalid data in state " ++ y ++ " file" := by
  intro h
  have h0 : ("Incompatible state " ++ x ++ " file").data.get? 2 = some 'c' := rfl
  have h1 : ("Invalid data in state " ++ y ++ " file").data.get? 2 = some 'v' := rfl
  rw [h] at h0
  exact absurd (Option.some.inj (h0.symm.trans h1)) (by decide)

theorem loadMsg_mismatch_ne_invalid (x y : String) :
    "State " ++ x ++ " file doesn't match current ROM" ≠
      "Invalid data in state " ++ y ++ " file" := by
  intro h
  have h0 : ("State " ++ x ++ " file doesn't match current ROM").data.get? 0 =
      some 'S' := rfl
  have h1 : ("Invalid data in state " ++ y ++ " file").data.get? 0 = some 'I' := rfl
  rw [h] at h0
  exact absurd (Option.some.inj (h0.symm.trans h1)) (by decide)

theorem effectiveSlot_nonneg (currentSlot : Nat) (slot : Int) :
    0 ≤ effectiveSlot currentSlot slot := by
  unfold effectiveSlot
  split <;> omega

/-! ### Claim theorems for StateManager -/

/-- C1: whenever `loadState(slot)` reads a state file whose first string
differs from the header tag, or whose second string differs from the
current cartridge's name, or whose body throws during deserialization, the
load aborts with the machine (and `myCurrentSlot`) unchanged, and the
message shown distinguishes the three cases. -/
theorem C1_stateManager_loadState_validation {M : Type} (env : LoadEnv M)
    (machine : M) (currentSlot : Nat) (slot : Int)
    (hc : env.hasConsole = true) (ho : env.canOpen = true) :
    (∀ h, env.s1 = .val h → h ≠ STATE_HEADER →
      StateManager.loadState env machine currentSlot slot =
        ⟨some ("Incompatible state " ++ toString (effectiveSlot currentSlot slot) ++
          " file"), machine, currentSlot, true⟩) ∧
    (∀ n, env.s1 = .val STATE_HEADER → env.s2 = .val n → n ≠ env.cartName →
      StateManager.loadState env machine currentSlot slot =
        ⟨some ("State " ++ toString (effectiveSlot currentSlot slot) ++
          " file doesn't match current ROM"), machine, currentSlot, true⟩) ∧
    (env.s1 = .val STATE_HEADER → env.s2 = .val env.cartName → env.body = .exn →
      StateManager.loadState env machine currentSlot slot =
        ⟨some ("Invalid data in state " ++ toString (effectiveSlot currentSlot slot) ++
          " file"), machine, currentSlot, true⟩) ∧
    ("Incompatible state " ++ toString (effectiveSlot currentSlot slot) ++ " file" ≠
      "State " ++ toString (effectiveSlot currentSlot slot) ++
        " file doesn't match current ROM") ∧
    ("Incompatible state " ++ toString (effectiveSlot currentSlot slot) ++ " file" ≠
      "Invalid data in state " ++ toString (effectiveSlot currentSlot slot) ++ " file") ∧
    ("State " ++ toString (effectiveSlot currentSlot slot) ++
        " file doesn't match current ROM" ≠
      "Invalid data in state " ++ toString (effectiveSlot currentSlot slot) ++ " file") := by
  refine ⟨?_, ?_, ?_, loadMsg_incompatible_ne_mismatch _ _,
    loadMsg_incompatible_ne_invalid _ _, loadMsg_mismatch_ne_invalid _ _⟩
  · intro h hs1 hne
    simp [StateManager.loadState, hc, ho, hs1, hne]
  · intro n hs1 hs2 hne
    simp [StateManager.loadState, hc, ho, hs1, hs2, hne]
  · intro hs1 hs2 hbody
    simp [StateManager.loadState, hc, ho, hs1, hs2, hbody]

/-- Witness for C1 at a concrete input: a file with a bogus header. -/
theorem C1_witness :
    StateManager.loadState (M := Nat)
      ⟨true, "PITFALL", true, SerRead.val "bogus", SerRead.val "x",
        ConsoleLoadResult.bad⟩ 42 0 3 =
      ⟨some "Incompatible state 3 file", 42, 0, true⟩ := by
  have := (C1_stateManager_loadState_validation (M := Nat)
    ⟨true, "PITFALL", true, SerRead.val "bogus", SerRead.val "x",
      ConsoleLoadResult.bad⟩ 42 0 3 rfl rfl).1 "bogus" rfl (by decide)
  simpa using this

/-- C5: `saveState(slot)` targets `currentSlot` when `slot < 0`; when the
`autoslot` setting is enabled and the console save succeeds, `currentSlot`
is advanced to the circular successor (mod 10) of the slot just saved. -/
theorem C5_stateManager_saveState_autoslot (env : SaveEnv) (currentSlot : Nat)
    (slot : Int) (hc : env.hasConsole = true) :
    (StateManager.saveState env currentSlot slot).targetSlot =
      some (effectiveSlot currentSlot slot) ∧
    (slot < 0 → (StateManager.saveState env currentSlot slot).targetSlot =
      some (currentSlot : Int)) ∧
    (env.canOpen = true → env.putHeaderThrows = false → env.consoleSaveOk = true →
      env.autoslot = true →
      ((StateManager.saveState env currentSlot slot).currentSlot : Int) =
        (effectiveSlot currentSlot slot + 1) % 10) := by
  refine ⟨?_, ?_, ?_⟩
  · simp only [StateManager.saveState, hc, if_true]
    split_ifs <;> rfl
  · intro hneg
    simp only [StateManager.saveState, hc, if_true, effectiveSlot, hneg, if_pos]
    split_ifs <;> rfl
  · intro h₁ h₂ h₃ h₄
    simp only [StateManager.saveState, hc, h₁, h₂, h₃, h₄, Bool.not_true,
      Bool.false_eq_true, if_false, if_true]
    rw [Int.toNat_of_nonneg]
    exact Int.emod_nonneg _ (by decide)

/-- Witness for C5: saving with `slot = -1`, `currentSlot = 9`, autoslot
enabled — the file targeted is slot 9 and the next default slot wraps to 0. -/
theorem C5_witness :
    (StateManager.saveState ⟨true, true, false, true, true⟩ 9 (-1)).targetSlot =
      some (9 : Int) ∧
    ((StateManager.saveState ⟨true, true, false, true, true⟩ 9 (-1)).currentSlot :
      Int) = 0 := by
  have h := C5_stateManager_saveState_autoslot ⟨true, true, false, true, true⟩ 9 (-1) rfl
  refine ⟨h.2.1 (by decide), ?_⟩
  rw [h.2.2 rfl rfl rfl rfl]
  decide

/-- C6: `update()` forwards exactly one `addState("Time Machine", true)`
call to the RewindManager when the active mode is `TimeMachine`, and does
nothing at all (no call, no state change) when the mode is `Off`. -/
theorem C6_stateManager_update (currentSlot : Nat) :
    StateManager.update Mode.TimeMachine currentSlot =
      ((Mode.TimeMachine, currentSlot), [⟨"Time Machine", true⟩]) ∧
    StateManager.update Mode.Off currentSlot = ((Mode.Off, currentSlot), []) :=
  ⟨rfl, rfl⟩

/-- C10: with no console attached, `loadState` and `saveState` return
immediately: no file is opened, no message is shown, the machine and
`myCurrentSlot` are untouched — regardless of the `autoslot` setting. -/
theorem C10_stateManager_noConsole {M : Type} (envL : LoadEnv M) (envS : SaveEnv)
    (machine : M) (currentSlot : Nat) (slotL slotS : Int)
    (hL : envL.hasConsole = false) (hS : envS.hasConsole = false) :
    StateManager.loadState envL machine currentSlot slotL =
      ⟨none, machine, currentSlot, false⟩ ∧
    StateManager.saveState envS currentSlot slotS = ⟨none, none, currentSlot⟩ := by
  constructor <;> simp [StateManager.loadState, StateManager.saveState, hL, hS]

/-- Witness for C10 with `autoslot` enabled and a negative slot. -/
theorem C10_witness :
    StateManager.loadState (M := Nat)
      ⟨false, "", true, SerRead.exn, SerRead.exn, ConsoleLoadResult.bad⟩ 7 2 (-1) =
      ⟨none, 7, 2, false⟩ ∧
    StateManager.saveState ⟨false, true, false, true, true⟩ 2 (-1) =
      ⟨none, none, 2⟩ :=
  C10_stateManager_noConsole _ _ 7 2 (-1) (-1) rfl rfl

/-! ## OSystem::mainLoop and OSystem::dispatchEmulation (OSystem.cxx)

Wall-clock and virtual time points and the `double`-valued timeslices are
modelled as exact rationals. -/

/-- The `EventHandlerState` values the main loop branches on (it compares
against `EMULATION` and `PLAYBACK` and treats every other state alike). -/
inductive EventHandlerState
  | EMULATION
  | PAUSE
  | LAUNCHER
  | OPTIONSMENU
  | CMDMENU
  | DEBUGGER
  | PLAYBACK
  | NONE
  deriving DecidableEq, Repr

/-- The read-only console timing data the loop consumes:
`EmulationTiming::cyclesPerSecond`, `EmulationTiming::cyclesPerFrame` and
`TIA::scanlinesLastFrame`. -/
structure ConsoleTiming where
  cyclesPerSecond : Nat
  cyclesPerFrame : Nat
  scanlinesLastFrame : Nat
  deriving DecidableEq, Repr

/-- The literal `76` in `scanlinesLastFrame() * 76` — 6507 cycles per
scanline, fixed for playback pacing. -/
def cyclesPerScanline : Nat := 76

/-- What one main-loop iteration observes: the event-handler state, the
console (if any) and the cycle count the emulation worker reports. -/
structure IterEnv where
  state : EventHandlerState
  console : Option ConsoleTiming
  cyclesExecuted : Nat
  deriving DecidableEq, Repr

/-- The value `OSystem::dispatchEmulation` returns: `0.` without a console,
else `totalCycles / cyclesPerSecond` seconds of 6507 time. -/
def dispatchEmulationSeconds (console : Option ConsoleTiming)
    (cyclesExecuted : Nat) : ℚ :=
  match console with
  | none => 0
  | some c => (cyclesExecuted : ℚ) / (c.cyclesPerSecond : ℚ)

/-- `timesliceSeconds` of one main-loop iteration: emulation uses the
worker's cycle count, playback uses `scanlinesLastFrame * 76 /
cyclesPerSecond`, every other (UI) mode uses `1. / 60.`. (In the playback
branch the C++ dereferences `myConsole` unconditionally; the `none` case
is unreachable there and modelled as `0`.) -/
def timesliceSeconds (env : IterEnv) : ℚ :=
  if env.state = .EMULATION then
    dispatchEmulationSeconds env.console env.cyclesExecuted
  else if env.state = .PLAYBACK then
    match env.console with
    | some c => ((c.scanlinesLastFrame * cyclesPerScanline : Nat) : ℚ) /
        (c.cyclesPerSecond : ℚ)
    | none => 0
  else
    1 / 60

/-- `maxLag` — "We allow 6507 time to lag behind by one frame max":
`cyclesPerFrame / cyclesPerSecond` when a console exists, else `0`. -/
def maxLag (console : Option ConsoleTiming) : ℚ :=
  match console with
  | some c => (c.cyclesPerFrame : ℚ) / (c.cyclesPerSecond : ℚ)
  | none => 0

/-- The virtual-time reconciliation of one main-loop iteration: advance
`virtualTime` by the timeslice; if wall-clock `now` is ahead by more than
`maxLag`, snap virtual time to `now`; otherwise, if virtual time is ahead,
sleep until it (second component records the sleep). -/
def mainLoopIterTime (env : IterEnv) (virtualTime now : ℚ) : ℚ × Bool :=
  let vt := virtualTime + timesliceSeconds env
  if now - vt > maxLag env.console then (now, false)
  else if vt > now then (vt, true)
  else (vt, false)

/-! ### Claim theorems for the pacing loop -/

/-- C2: in every iteration, once virtual time has been advanced by the
timeslice, if wall-clock `now` exceeds it by more than one emulated
frame's duration (`cyclesPerFrame / cyclesPerSecond`, or `0` without a
console) then virtual time is snapped to `now` — the backlog is dropped. -/
theorem C2_mainLoop_resync (env : IterEnv) (virtualTime now : ℚ)
    (hlag : now - (virtualTime + timesliceSeconds env) > maxLag env.console) :
    (∀ c, env.console = some c →
      maxLag env.console = (c.cyclesPerFrame : ℚ) / (c.cyclesPerSecond : ℚ)) ∧
    (env.console = none → maxLag env.console = 0) ∧
    (mainLoopIterTime env virtualTime now).1 = now := by
  refine ⟨fun c hc => by rw [hc]; rfl, fun hc => by rw [hc]; rfl, ?_⟩
  simp [mainLoopIterTime, hlag]

/-- Witness for C2: a UI-mode iteration with no console, stalled for one
second of wall time — virtual time is clamped to `now`. -/
theorem C2_witness :
    (mainLoopIterTime ⟨EventHandlerState.PAUSE, none, 0⟩ 0 1).1 = 1 :=
  (C2_mainLoop_resync ⟨EventHandlerState.PAUSE, none, 0⟩ 0 1
    (by simp [timesliceSeconds, maxLag]; norm_num)).2.2

/-- C7: the virtual-time advance of an iteration is `cyclesExecuted /
cyclesPerSecond` when emulating, `scanlinesLastFrame * cyclesPerScanline /
cyclesPerSecond` when playing back a recording (`cyclesPerScanline = 76`
fixed), and exactly `1/60` second in all other (UI) modes. -/
theorem C7_mainLoop_timeslice (env : IterEnv) (c : ConsoleTiming) :
    (env.state = .EMULATION → env.console = some c →
      timesliceSeconds env = (env.cyclesExecuted : ℚ) / (c.cyclesPerSecond : ℚ)) ∧
    (env.state = .PLAYBACK → env.console = some c →
      timesliceSeconds env =
        ((c.scanlinesLastFrame * cyclesPerScanline : Nat) : ℚ) /
          (c.cyclesPerSecond : ℚ)) ∧
    (env.state ≠ .EMULATION → env.state ≠ .PLAYBACK →
      timesliceSeconds env = 1 / 60) := by
  refine ⟨fun hs hc => ?_, fun hs hc => ?_, fun h₁ h₂ => ?_⟩
  · simp [timesliceSeconds, hs, hc, dispatchEmulationSeconds]
  · simp [timesliceSeconds, hs, hc]
  · simp [timesliceSeconds, h₁, h₂]

/-- Witness for C7: a playback iteration on a 262-scanline NTSC frame. -/
theorem C7_witness :
    timesliceSeconds ⟨EventHandlerState.PLAYBACK, some ⟨1193182, 19912, 262⟩, 0⟩ =
      ((262 * 76 : Nat) : ℚ) / (1193182 : ℚ) :=
  (C7_mainLoop_timeslice ⟨EventHandlerState.PLAYBACK, some ⟨1193182, 19912, 262⟩, 0⟩
    ⟨1193182, 19912, 262⟩).2.1 rfl rfl

/-! ### OSystem::dispatchEmulation as a foreground-thread event trace

`dispatchEmulation` is straight-line foreground code; its observable
actions, in program order, form a trace. The claims about the
foreground/background handoff are ordering properties of that trace. -/

/-- The observable foreground actions of `OSystem::dispatchEmulation`. -/
inductive DispatchEvent
  | fpsRender            -- myFpsMeter.render(tia.framesSinceLastRender())
  | renderToFrameBuffer  -- tia.renderToFrameBuffer(): snapshot pending frame
  | workerStart          -- emulationWorker.start(...)
  | frameBufferUpdate    -- myFrameBuffer->updateInEmulationMode(...)
  | workerStop           -- emulationWorker.stop()
  | readDispatchResult   -- switch (dispatchResult.getStatus()) { ... }
  | debuggerStart        -- myDebugger->start(...)
  | fatalReport          -- myDebugger->startWithFatalError(...) / cerr
  | fry                  -- myConsole->fry()
  deriving DecidableEq, Repr

/-- `DispatchResult::Status` (the values produced by the worker). -/
inductive DispatchStatus
  | ok
  | debugger
  | fatal
  deriving DecidableEq, Repr

/-- Whether a foreground action reads or writes emulated machine state
(TIA video memory, console): the pending-frame snapshot and the FPS meter
read the TIA, the debugger entry hands the machine to the debugger, and
frying power-cycles the console. Presenting the already-copied frame
buffer (`frameBufferUpdate`) and reading the `DispatchResult` do not. -/
def DispatchEvent.touchesMachine : DispatchEvent → Bool
  | .fpsRender => true
  | .renderToFrameBuffer => true
  | .fry => true
  | .debuggerStart => true
  | _ => false

/-- The foreground event trace of one `OSystem::dispatchEmulation` call,
in program order, as a function of what the call observes: whether a
console exists, whether a rendered frame is pending, the status the worker
publishes, and whether a fry was requested. -/
def dispatchEmulationTrace (hasConsole framePending : Bool)
    (status : DispatchStatus) (frying : Bool) : List DispatchEvent :=
  if hasConsole then
    (if framePending then [.fpsRender, .renderToFrameBuffer] else []) ++
    [.workerStart] ++
    (if framePending then [.frameBufferUpdate] else []) ++
    [.workerStop, .readDispatchResult] ++
    (match status with
     | .ok => []
     | .debugger => [.debuggerStart]
     | .fatal => [.fatalReport]) ++
    (if (match status with | .ok => true | _ => false) && frying
     then [.fry] else [])
  else []

/-- The events strictly between `workerStart` and `workerStop` — the
window in which the background thread owns the machine. -/
def dispatchWindow (tr : List DispatchEvent) : List DispatchEvent :=
  ((tr.dropWhile (fun e => e != DispatchEvent.workerStart)).drop 1).takeWhile
    (fun e => e != DispatchEvent.workerStop)

/-- C8: in every `dispatchEmulation` call, a pending frame is copied into
the presentable frame buffer strictly before `EmulationWorker::start()`,
the `DispatchResult` is read only after `EmulationWorker::stop()` has
returned, and no foreground action between `start()` and `stop()` touches
emulated machine state. -/
theorem C8_dispatchEmulation_ordering (framePending frying : Bool)
    (status : DispatchStatus) :
    (framePending = true →
      DispatchEvent.renderToFrameBuffer ∈
        (dispatchEmulationTrace true framePending status frying).takeWhile
          (fun e => e != DispatchEvent.workerStart)) ∧
    DispatchEvent.readDispatchResult ∈
      (((dispatchEmulationTrace true framePending status frying).dropWhile
        (fun e => e != DispatchEvent.workerStop)).drop 1) ∧
    ((dispatchWindow (dispatchEmulationTrace true framePending status frying)).all
      (fun e => !e.touchesMachine)) = true := by
  cases framePending <;> cases frying <;> cases status <;> decide

/-- Witness for C8 at a concrete input: a pending frame, an `ok` worker
result, no fry request. -/
theorem C8_witness :
    DispatchEvent.renderToFrameBuffer ∈
      (dispatchEmulationTrace true true DispatchStatus.ok false).takeWhile
        (fun e => e != DispatchEvent.workerStart) :=
  (C8_dispatchEmulation_ordering true false DispatchStatus.ok).1 rfl

end Stella
